import Mathlib

/-!
Verification of the financial projection engine of the smart-auto-loan-planner
repository (src/finance_calculator.py and the calculation section of src/app.py).

The Python code computes with floats; the shallow embedding below uses exact
rational arithmetic (`ℚ`).  Python's `ZeroDivisionError` (raised by `/` on a
zero denominator) is embedded by making the one unguarded division in
`calculate_emi` return `Except.error`; every other division in the source is
either guarded by a conditional or has a denominator that is nonzero by
construction, and is embedded with `ℚ`'s total division at those guarded call
sites exactly as the source writes them.
-/

namespace AutoLoan

/-- Errors for the EMI computation.  `zeroDivisionError` embeds Python's
built-in `ZeroDivisionError`.  `invalidTermError` is Modelled from the spec:
the spec (sections 4.2 and 7) names an `InvalidTermError` signalled for
zero-term loans, but no such error exists anywhere in the source; it is
included only so that statements about it can be written. -/
inductive LoanError where
  | zeroDivisionError
  | invalidTermError
  deriving DecidableEq, Repr

/-- Embeds `calculate_emi` (src/finance_calculator.py, lines 29-37).
`monthly_rate = (annual_rate / 100) / 12`, `term_months = term_years * 12`;
if `monthly_rate > 0` the annuity formula is applied, whose division raises
`ZeroDivisionError` when `(1 + monthly_rate)^term_months - 1 == 0`; otherwise
`principal / term_months if term_months > 0 else 0`. -/
def calculate_emi (principal annual_rate : ℚ) (term_years : ℕ) : Except LoanError ℚ :=
  let monthly_rate : ℚ := annual_rate / 100 / 12
  let term_months : ℕ := term_years * 12
  if 0 < monthly_rate then
    if (1 + monthly_rate) ^ term_months - 1 = 0 then
      Except.error LoanError.zeroDivisionError
    else
      Except.ok (principal * (monthly_rate * (1 + monthly_rate) ^ term_months) /
        ((1 + monthly_rate) ^ term_months - 1))
  else
    Except.ok (if 0 < term_months then principal / (term_months : ℚ) else 0)

/-- A vehicle record as produced by `VehicleData.get_vehicle_info`
(src/finance_calculator.py, lines 20-27): the fields of a row of
`vehicle_data.csv` that `calculate_total_cost_of_ownership` reads. -/
structure VehicleInfo where
  fuel_type : String
  efficiency : ℚ
  avg_insurance_per_year : ℚ
  avg_maintenance_per_year : ℚ
  deriving DecidableEq, Repr

/-- The five-field dictionary returned by `calculate_total_cost_of_ownership`
(src/finance_calculator.py, lines 68-74): keys "Loan Payments", "Insurance",
"Maintenance", "Fuel/Charging", "Total TCO". -/
structure TCOBreakdown where
  loanPayments : ℚ
  insurance : ℚ
  maintenance : ℚ
  fuelOrCharging : ℚ
  totalTco : ℚ
  deriving DecidableEq, Repr

/-- Embeds `calculate_total_cost_of_ownership` (src/finance_calculator.py,
lines 39-74).  A falsy (`None` / empty) `vehicle_info` gives the empty
dictionary, embedded as `none`.  The gas branch guards `efficiency > 0`
(`annual_miles / efficiency if efficiency > 0 else 0`); the electric branch
divides only by the constant 100. -/
def calculate_total_cost_of_ownership (vehicle_info : Option VehicleInfo)
    (total_loan_cost : ℚ) (term_years : ℕ) (gas_price electricity_price : ℚ) :
    Option TCOBreakdown :=
  match vehicle_info with
  | none => none
  | some vi =>
    let insurance_cost := vi.avg_insurance_per_year * (term_years : ℚ)
    let maintenance_cost := vi.avg_maintenance_per_year * (term_years : ℚ)
    let annual_miles : ℚ := 12000
    let total_fuel_charging_cost : ℚ :=
      if vi.fuel_type = "Gas" then
        (if 0 < vi.efficiency then annual_miles / vi.efficiency else 0) *
          gas_price * (term_years : ℚ)
      else if vi.fuel_type = "Electric" then
        ((annual_miles / 100) * vi.efficiency) * electricity_price * (term_years : ℚ)
      else 0
    let total_tco := total_loan_cost + insurance_cost + maintenance_cost +
      total_fuel_charging_cost
    some { loanPayments := total_loan_cost
           insurance := insurance_cost
           maintenance := maintenance_cost
           fuelOrCharging := total_fuel_charging_cost
           totalTco := total_tco }

/-- One row of the schedule built by `generate_amortization_and_depreciation`
(src/finance_calculator.py, lines 102-106): keys "Year", "Loan_Balance",
"Car_Value". -/
structure ScheduleRow where
  year : ℕ
  loan_Balance : ℚ
  car_Value : ℚ
  deriving DecidableEq, Repr

/-- One iteration of the inner monthly loop of
`generate_amortization_and_depreciation` (src/finance_calculator.py, lines
94-97): `interest_payment = balance * (annual_rate / 100 / 12)`;
`principal_payment = emi - interest_payment`; `balance -= principal_payment`. -/
def monthly_step (annual_rate emi balance : ℚ) : ℚ :=
  balance - (emi - balance * (annual_rate / 100 / 12))

/-- The running `remaining_balance` after `year` complete years, i.e. after
`12 * year` iterations of the monthly loop, starting from `principal`
(src/finance_calculator.py, lines 83 and 89-97; the loop body runs only for
`year ≥ 1`). -/
def balance_at_year (principal annual_rate emi : ℚ) : ℕ → ℚ
  | 0 => principal
  | y + 1 => (monthly_step annual_rate emi)^[12] (balance_at_year principal annual_rate emi y)

/-- The `depreciated_value` recorded for a year (src/finance_calculator.py,
lines 90-91 and 99-100): `vehicle_price` at year 0, else
`vehicle_price * ((1 - annual_depreciation_rate) ** year)` with the fixed
`annual_depreciation_rate = 0.15` of line 87. -/
def depreciated_value (vehicle_price : ℚ) (year : ℕ) : ℚ :=
  if year = 0 then vehicle_price else vehicle_price * (1 - 0.15) ^ year

/-- Embeds `generate_amortization_and_depreciation` (src/finance_calculator.py,
lines 76-108): one row per `year in range(term_years + 1)`, recording
`max(0, remaining_balance)` and the depreciated value.  The `vehicle_info`
argument is accepted and never used, exactly as in the source (its docstring
notes the missing per-model depreciation data). -/
def generate_amortization_and_depreciation (principal annual_rate : ℚ)
    (term_years : ℕ) (emi vehicle_price : ℚ) (vehicle_info : Option VehicleInfo) :
    List ScheduleRow :=
  (List.range (term_years + 1)).map fun year =>
    { year := year
      loan_Balance := max 0 (balance_at_year principal annual_rate emi year)
      car_Value := depreciated_value vehicle_price year }

/-- Embeds src/app.py line 165:
`underwater_amounts = (schedule_df['Loan_Balance'] - schedule_df['Car_Value']).clip(lower=0)`
(a pandas elementwise clip: `max(balance - value, 0)` per row). -/
def underwater_amounts (schedule : List ScheduleRow) : List ℚ :=
  schedule.map fun row => max (row.loan_Balance - row.car_Value) 0

/-- Embeds src/app.py line 166: `max_underwater = underwater_amounts.max()`.
The series is always nonempty (the schedule has `term_years + 1 ≥ 1` rows),
so the `0` default of `unbot'` is never reached. -/
def max_underwater (schedule : List ScheduleRow) : ℚ :=
  (underwater_amounts schedule).maximum.unbot' 0

/-- Embeds src/app.py line 234:
`monthly_tco = tco_breakdown.get('Total TCO', 0) / (loan_term * 12)`. -/
def monthly_tco (total_tco : ℚ) (loan_term : ℕ) : ℚ :=
  total_tco / ((loan_term * 12 : ℕ) : ℚ)

/-- Embeds src/app.py line 235:
`tco_ratio = (monthly_tco / monthly_income) * 100`. -/
def tco_ratio (mtco monthly_income : ℚ) : ℚ :=
  mtco / monthly_income * 100

/-- Embeds the classification chain of src/app.py lines 237-242:
`if tco_ratio < 15: "Good" elif tco_ratio < 20: "Borderline" else: "High-Risk"`. -/
def affordability_status (ratio : ℚ) : String :=
  if ratio < 15 then "Good"
  else if ratio < 20 then "Borderline"
  else "High-Risk"

/-- C4: for every non-absent vehicle record and all valid inputs (positive
term, non-negative loan cost and energy prices), the breakdown returned by
`calculate_total_cost_of_ownership` has its total field exactly equal to the
sum of its four named component fields — no hidden costs. -/
theorem tco_total_eq_component_sum (vi : VehicleInfo) (total_loan_cost : ℚ)
    (term_years : ℕ) (gas_price electricity_price : ℚ) (ht : 0 < term_years)
    (hl : 0 ≤ total_loan_cost) (hg : 0 ≤ gas_price) (he : 0 ≤ electricity_price) :
    ∃ b, calculate_total_cost_of_ownership (some vi) total_loan_cost term_years
        gas_price electricity_price = some b ∧
      b.totalTco = b.loanPayments + b.insurance + b.maintenance + b.fuelOrCharging :=
  ⟨_, rfl, rfl⟩

/-- Witness for C4 at a concrete gas vehicle. -/
theorem tco_total_eq_component_sum_witness :
    ∃ b, calculate_total_cost_of_ownership
        (some ⟨"Gas", 30, 800, 400⟩) 30000 5 (7/2) (3/20) = some b ∧
      b.totalTco = b.loanPayments + b.insurance + b.maintenance + b.fuelOrCharging :=
  tco_total_eq_component_sum ⟨"Gas", 30, 800, 400⟩ 30000 5 (7/2) (3/20)
    (by norm_num) (by norm_num) (by norm_num) (by norm_num)

/-- C9: for every Gas vehicle record, the energy cost component equals
`(12000 / efficiency) * gas_price * term_years` when `efficiency > 0` and `0`
when `efficiency = 0` (the division is guarded); in particular efficiency 30,
gas price $3.50 and a 5-year term yield a $7,000 fuel cost. -/
theorem gas_energy_cost_guarded (vi : VehicleInfo) (hgas : vi.fuel_type = "Gas")
    (total_loan_cost : ℚ) (term_years : ℕ) (gas_price electricity_price : ℚ) :
    (∃ b, calculate_total_cost_of_ownership (some vi) total_loan_cost term_years
        gas_price electricity_price = some b ∧
      (0 < vi.efficiency →
        b.fuelOrCharging = 12000 / vi.efficiency * gas_price * (term_years : ℚ)) ∧
      (vi.efficiency = 0 → b.fuelOrCharging = 0)) ∧
    ∃ b, calculate_total_cost_of_ownership (some ⟨"Gas", 30, 0, 0⟩) 0 5 (7/2) (3/20)
        = some b ∧ b.fuelOrCharging = 7000 := by
  constructor
  · refine ⟨_, rfl, ?_, ?_⟩
    · intro hpos
      simp [calculate_total_cost_of_ownership, hgas, hpos]
    · intro hzero
      simp [calculate_total_cost_of_ownership, hgas, hzero]
  · exact ⟨_, rfl, by norm_num [calculate_total_cost_of_ownership]⟩

/-- Witness for C9 at a concrete gas vehicle. -/
theorem gas_energy_cost_guarded_witness :
    (∃ b, calculate_total_cost_of_ownership (some ⟨"Gas", 30, 900, 500⟩) 20000 5
        (7/2) (3/20) = some b ∧
      (0 < (VehicleInfo.mk "Gas" 30 900 500).efficiency →
        b.fuelOrCharging = 12000 / (VehicleInfo.mk "Gas" 30 900 500).efficiency *
          (7/2) * ((5 : ℕ) : ℚ)) ∧
      ((VehicleInfo.mk "Gas" 30 900 500).efficiency = 0 → b.fuelOrCharging = 0)) ∧
    ∃ b, calculate_total_cost_of_ownership (some ⟨"Gas", 30, 0, 0⟩) 0 5 (7/2) (3/20)
        = some b ∧ b.fuelOrCharging = 7000 :=
  gas_energy_cost_guarded ⟨"Gas", 30, 900, 500⟩ rfl 20000 5 (7/2) (3/20)

/-- C10: for every vehicle record whose fuel type is neither "Gas" nor
"Electric", the breakdown is still returned in full, the energy component is
`0`, and the total equals loan + insurance + maintenance. -/
theorem other_fuel_type_full_breakdown (vi : VehicleInfo)
    (h1 : vi.fuel_type ≠ "Gas") (h2 : vi.fuel_type ≠ "Electric")
    (total_loan_cost : ℚ) (term_years : ℕ) (gas_price electricity_price : ℚ) :
    ∃ b, calculate_total_cost_of_ownership (some vi) total_loan_cost term_years
        gas_price electricity_price = some b ∧
      b.fuelOrCharging = 0 ∧
      b.totalTco = total_loan_cost + b.insurance + b.maintenance := by
  refine ⟨_, rfl, ?_, ?_⟩ <;> simp [calculate_total_cost_of_ownership, h1, h2]

/-- Witness for C10 at a concrete hybrid vehicle. -/
theorem other_fuel_type_full_breakdown_witness :
    ∃ b, calculate_total_cost_of_ownership (some ⟨"Hybrid", 50, 700, 300⟩) 25000 4
        (7/2) (3/20) = some b ∧
      b.fuelOrCharging = 0 ∧
      b.totalTco = 25000 + b.insurance + b.maintenance :=
  other_fuel_type_full_breakdown ⟨"Hybrid", 50, 700, 300⟩ (by decide) (by decide)
    25000 4 (7/2) (3/20)

/-- C6: for positive income, the health classification is "Good" iff the
ratio is below 15, "Borderline" iff it is in [15, 20), and "High-Risk" iff it
is at least 20 (each boundary belongs to the higher-risk band); in particular
income $6,000 and monthly TCO $1,200 give ratio 20 and "High-Risk". -/
theorem affordability_classification (monthly_income mtco : ℚ)
    (hinc : 0 < monthly_income) :
    (affordability_status (tco_ratio mtco monthly_income) = "Good" ↔
      tco_ratio mtco monthly_income < 15) ∧
    (affordability_status (tco_ratio mtco monthly_income) = "Borderline" ↔
      15 ≤ tco_ratio mtco monthly_income ∧ tco_ratio mtco monthly_income < 20) ∧
    (affordability_status (tco_ratio mtco monthly_income) = "High-Risk" ↔
      20 ≤ tco_ratio mtco monthly_income) ∧
    tco_ratio 1200 6000 = 20 ∧
    affordability_status (tco_ratio 1200 6000) = "High-Risk" := by
  refine ⟨?_, ?_, ?_, by norm_num [tco_ratio],
    by norm_num [tco_ratio, affordability_status]⟩ <;>
  · unfold affordability_status
    split_ifs with h1 h2 <;> simp_all <;> linarith

/-- Witness for C6 at the spec's end-to-end scenario. -/
theorem affordability_classification_witness :
    affordability_status (tco_ratio 1200 6000) = "High-Risk" ∧
    tco_ratio 1200 6000 = 20 :=
  ⟨(affordability_classification 6000 1200 (by norm_num)).2.2.2.2,
   (affordability_classification 6000 1200 (by norm_num)).2.2.2.1⟩

/-- C5: for every generated schedule, each entry of the underwater series
`max(balance - value, 0)` is non-negative, and the recorded peak is the
maximum of the series: it belongs to the series and bounds every entry. -/
theorem underwater_series_nonneg_peak (p r : ℚ) (t : ℕ) (e vp : ℚ)
    (vi : Option VehicleInfo) :
    (∀ x ∈ underwater_amounts (generate_amortization_and_depreciation p r t e vp vi),
      0 ≤ x) ∧
    max_underwater (generate_amortization_and_depreciation p r t e vp vi) ∈
      underwater_amounts (generate_amortization_and_depreciation p r t e vp vi) ∧
    ∀ x ∈ underwater_amounts (generate_amortization_and_depreciation p r t e vp vi),
      x ≤ max_underwater (generate_amortization_and_depreciation p r t e vp vi) := by
  have hnonneg : ∀ x ∈ underwater_amounts
      (generate_amortization_and_depreciation p r t e vp vi), 0 ≤ x := by
    intro x hx
    simp only [underwater_amounts, List.mem_map] at hx
    obtain ⟨row, -, rfl⟩ := hx
    exact le_max_right _ _
  have hne : underwater_amounts (generate_amortization_and_depreciation p r t e vp vi)
      ≠ [] := by
    simp [underwater_amounts, generate_amortization_and_depreciation,
      List.range_succ_eq_map]
  have hbot : (underwater_amounts
      (generate_amortization_and_depreciation p r t e vp vi)).maximum ≠ ⊥ := by
    simpa [List.maximum_eq_bot] using hne
  obtain ⟨m, hm⟩ := WithBot.ne_bot_iff_exists.mp hbot
  have hmu : max_underwater (generate_amortization_and_depreciation p r t e vp vi) = m := by
    rw [max_underwater, ← hm]
    rfl
  refine ⟨hnonneg, ?_, ?_⟩
  · rw [hmu]
    exact List.maximum_mem hm.symm
  · intro x hx
    rw [hmu]
    exact_mod_cast List.le_maximum_of_mem hx hm.symm

/-- C7: for every non-negative principal, the generated schedule has exactly
`term_years + 1` rows, its first row (period 0) records balance = principal,
and every recorded balance is clamped with `max 0 _`, hence non-negative. -/
theorem schedule_length_origin_clamp (p r : ℚ) (t : ℕ) (e vp : ℚ)
    (vi : Option VehicleInfo) (hp : 0 ≤ p) :
    (generate_amortization_and_depreciation p r t e vp vi).length = t + 1 ∧
    (∃ row0, (generate_amortization_and_depreciation p r t e vp vi).head? = some row0 ∧
      row0.year = 0 ∧ row0.loan_Balance = p) ∧
    ∀ row ∈ generate_amortization_and_depreciation p r t e vp vi,
      0 ≤ row.loan_Balance := by
  refine ⟨by simp [generate_amortization_and_depreciation], ?_, ?_⟩
  · refine ⟨⟨0, max 0 (balance_at_year p r e 0), depreciated_value vp 0⟩, ?_, rfl, ?_⟩
    · simp [generate_amortization_and_depreciation, List.range_succ_eq_map]
    · simpa [balance_at_year] using max_eq_right hp
  · intro row hrow
    simp only [generate_amortization_and_depreciation, List.mem_map] at hrow
    obtain ⟨y, -, rfl⟩ := hrow
    exact le_max_left _ _

/-- Witness for C7 at concrete loan parameters. -/
theorem schedule_length_origin_clamp_witness :
    (generate_amortization_and_depreciation 1000 5 3 30 2000 none).length = 3 + 1 :=
  (schedule_length_origin_clamp 1000 5 3 30 2000 none (by norm_num)).1

/-- C8: for every positive vehicle price, the depreciated value at year 0 is
the unmodified price, the value `price * (1 - 0.15) ^ year` is strictly
decreasing in the year, and every schedule row records exactly this value. -/
theorem depreciation_year_zero_and_strict_decrease (vp : ℚ) (hvp : 0 < vp) :
    depreciated_value vp 0 = vp ∧
    (∀ y : ℕ, depreciated_value vp (y + 1) < depreciated_value vp y) ∧
    ∀ (p r e : ℚ) (t : ℕ) (vi : Option VehicleInfo),
      ∀ row ∈ generate_amortization_and_depreciation p r t e vp vi,
        row.car_Value = depreciated_value vp row.year := by
  refine ⟨rfl, ?_, ?_⟩
  · intro y
    match y with
    | 0 =>
      unfold depreciated_value
      norm_num
      nlinarith
    | y + 1 =>
      simp only [depreciated_value, if_neg (Nat.succ_ne_zero _)]
      exact mul_lt_mul_of_pos_left
        (pow_lt_pow_right_of_lt_one₀ (by norm_num) (by norm_num) (Nat.lt_succ_self _)) hvp
  · intro p r e t vi row hrow
    simp only [generate_amortization_and_depreciation, List.mem_map] at hrow
    obtain ⟨y, -, rfl⟩ := hrow
    rfl

/-- Witness for C8 at price $40,000. -/
theorem depreciation_year_zero_and_strict_decrease_witness :
    depreciated_value 40000 0 = 40000 ∧
    depreciated_value 40000 3 < depreciated_value 40000 2 :=
  ⟨(depreciation_year_zero_and_strict_decrease 40000 (by norm_num)).1,
   (depreciation_year_zero_and_strict_decrease 40000 (by norm_num)).2.1 2⟩

/-- The monthly rate `r / 100 / 12` is positive exactly when `r` is. -/
lemma monthly_rate_pos_iff (r : ℚ) : 0 < r / 100 / 12 ↔ 0 < r := by
  rw [div_div, show (100:ℚ) * 12 = 1200 by norm_num]
  constructor
  · intro h
    have h2 := mul_pos h (show (0:ℚ) < 1200 by norm_num)
    rwa [div_mul_cancel₀ _ (show (1200:ℚ) ≠ 0 by norm_num)] at h2
  · intro h
    exact div_pos h (by norm_num)

/-- Geometric growth bound: `(1+m)^n - 1 ≤ n * m * (1+m)^n` for `m ≥ 0`. -/
lemma pow_sub_one_le_mul (m : ℚ) (hm : 0 ≤ m) (n : ℕ) :
    (1 + m) ^ n - 1 ≤ (n : ℚ) * m * (1 + m) ^ n := by
  induction n with
  | zero => simp
  | succ n ih =>
    have h1 : (1:ℚ) ≤ (1 + m) ^ n := one_le_pow₀ (by linarith)
    have hP : (0:ℚ) ≤ (1 + m) ^ n := by linarith
    have hn : (0:ℚ) ≤ (n : ℚ) := Nat.cast_nonneg n
    push_cast
    rw [pow_succ]
    nlinarith [mul_nonneg (mul_nonneg hn (mul_nonneg hm hm)) hP,
      mul_nonneg (mul_nonneg hm hm) hP]

/-- The annuity denominator is positive for a positive monthly rate and a
nonzero number of months. -/
lemma annuity_denom_pos (m : ℚ) (hm : 0 < m) (n : ℕ) (hn : n ≠ 0) :
    0 < (1 + m) ^ n - 1 := by
  have := one_lt_pow₀ (show (1:ℚ) < 1 + m by linarith) hn
  linarith

/-- Closed form for the monthly loop, multiplied through by the monthly rate:
after `k` steps from balance `b`, the balance times `r/100/12` equals
`(b * (r/100/12) - emi) * (1 + r/100/12)^k + emi`. -/
lemma iterate_monthly_step_mul (r e b : ℚ) (k : ℕ) :
    (monthly_step r e)^[k] b * (r / 100 / 12) =
      (b * (r / 100 / 12) - e) * (1 + r / 100 / 12) ^ k + e := by
  induction k with
  | zero => simp
  | succ k ih =>
    have hstep : monthly_step r e ((monthly_step r e)^[k] b) =
        (monthly_step r e)^[k] b - (e - (monthly_step r e)^[k] b * (r / 100 / 12)) := rfl
    rw [Function.iterate_succ_apply', hstep]
    linear_combination (1 + r / 100 / 12) * ih

/-- With a zero annual rate, each monthly step just subtracts the EMI. -/
lemma iterate_monthly_step_zero_rate (e b : ℚ) (k : ℕ) :
    (monthly_step 0 e)^[k] b = b - (k : ℚ) * e := by
  induction k with
  | zero => simp
  | succ k ih =>
    rw [Function.iterate_succ_apply', ih]
    unfold monthly_step
    push_cast
    ring

/-- The balance after `y` years is the monthly step iterated `12 * y` times. -/
lemma balance_at_year_eq_iterate (p r e : ℚ) (y : ℕ) :
    balance_at_year p r e y = (monthly_step r e)^[12 * y] p := by
  induction y with
  | zero => simp [balance_at_year]
  | succ y ih =>
    show (monthly_step r e)^[12] (balance_at_year p r e y) = _
    rw [ih, show 12 * (y + 1) = 12 + 12 * y by ring, Function.iterate_add_apply]

/-- In the positive-rate branch with a positive term, `calculate_emi` returns
the annuity formula value. -/
lemma calculate_emi_pos (p r : ℚ) (t : ℕ) (hr : 0 < r) (ht : 0 < t) :
    calculate_emi p r t = Except.ok
      (p * ((r / 100 / 12) * (1 + r / 100 / 12) ^ (t * 12)) /
        ((1 + r / 100 / 12) ^ (t * 12) - 1)) := by
  have hm : 0 < r / 100 / 12 := (monthly_rate_pos_iff r).mpr hr
  have hn : t * 12 ≠ 0 := by omega
  have hd : 0 < (1 + r / 100 / 12) ^ (t * 12) - 1 := annuity_denom_pos _ hm _ hn
  unfold calculate_emi
  rw [if_pos hm, if_neg (ne_of_gt hd)]

/-- In the zero-rate branch with a positive term, `calculate_emi` returns the
pure amortization value `principal / term_months`. -/
lemma calculate_emi_zero_rate (p : ℚ) (t : ℕ) (ht : 0 < t) :
    calculate_emi p 0 t = Except.ok (p / ((t * 12 : ℕ) : ℚ)) := by
  unfold calculate_emi
  rw [if_neg (by norm_num : ¬ (0:ℚ) < 0 / 100 / 12),
    if_pos (show 0 < t * 12 by omega)]

/-- C1: for every principal ≥ 0, rate ≥ 0 and positive integer term, the EMI
returned by `calculate_emi` multiplied by the number of months
`term_years * 12` is at least the principal. -/
theorem emi_recovers_principal (p r : ℚ) (t : ℕ) (hp : 0 ≤ p) (hr : 0 ≤ r)
    (ht : 0 < t) :
    ∃ e, calculate_emi p r t = Except.ok e ∧ p ≤ e * ((t : ℚ) * 12) := by
  rcases eq_or_lt_of_le hr with hr0 | hrpos
  · refine ⟨p / ((t * 12 : ℕ) : ℚ), by rw [← hr0]; exact calculate_emi_zero_rate p t ht, ?_⟩
    have hq : (0:ℚ) < (t : ℚ) * 12 := by
      have : (0:ℚ) < (t : ℚ) := by exact_mod_cast ht
      linarith
    push_cast
    rw [div_mul_cancel₀ _ (ne_of_gt hq)]
  · have hm : 0 < r / 100 / 12 := (monthly_rate_pos_iff r).mpr hrpos
    have hn : t * 12 ≠ 0 := by omega
    have hd : 0 < (1 + r / 100 / 12) ^ (t * 12) - 1 := annuity_denom_pos _ hm _ hn
    refine ⟨_, calculate_emi_pos p r t hrpos ht, ?_⟩
    rw [div_mul_eq_mul_div, le_div_iff₀ hd]
    have key := pow_sub_one_le_mul (r / 100 / 12) (le_of_lt hm) (t * 12)
    push_cast at key
    have hmul := mul_le_mul_of_nonneg_left key hp
    linarith [hmul]

/-- Witness for C1 at principal 1000, rate 6%, term 5 years. -/
theorem emi_recovers_principal_witness :
    ∃ e, calculate_emi 1000 6 5 = Except.ok e ∧ 1000 ≤ e * (((5:ℕ) : ℚ) * 12) :=
  emi_recovers_principal 1000 6 5 (by norm_num) (by norm_num) (by norm_num)

/-- With the EMI actually returned by `calculate_emi`, the exact balance after
all `term_years` years of monthly steps is exactly 0. -/
lemma balance_at_term_zero (p r : ℚ) (t : ℕ) (hr : 0 ≤ r) (ht : 0 < t) (e : ℚ)
    (he : calculate_emi p r t = Except.ok e) :
    balance_at_year p r e t = 0 := by
  rcases eq_or_lt_of_le hr with hr0 | hrpos
  · rw [← hr0] at he
    rw [calculate_emi_zero_rate p t ht] at he
    obtain rfl : p / ((t * 12 : ℕ) : ℚ) = e := by simpa using he
    rw [← hr0, balance_at_year_eq_iterate, iterate_monthly_step_zero_rate]
    have hq : ((t : ℚ)) ≠ 0 := by
      exact_mod_cast Nat.pos_iff_ne_zero.mp ht
    push_cast
    field_simp
    ring
  · have hm : 0 < r / 100 / 12 := (monthly_rate_pos_iff r).mpr hrpos
    have hn : t * 12 ≠ 0 := by omega
    have hd : 0 < (1 + r / 100 / 12) ^ (t * 12) - 1 := annuity_denom_pos _ hm _ hn
    have hdne : (1 + r / 100 / 12) ^ (t * 12) - 1 ≠ 0 := ne_of_gt hd
    rw [calculate_emi_pos p r t hrpos ht] at he
    obtain rfl : p * ((r / 100 / 12) * (1 + r / 100 / 12) ^ (t * 12)) /
        ((1 + r / 100 / 12) ^ (t * 12) - 1) = e := by simpa using he
    rw [balance_at_year_eq_iterate]
    have hiter := iterate_monthly_step_mul r
      (p * ((r / 100 / 12) * (1 + r / 100 / 12) ^ (t * 12)) /
        ((1 + r / 100 / 12) ^ (t * 12) - 1)) p (12 * t)
    have key : ∀ m X : ℚ, X - 1 ≠ 0 →
        (p * m - p * (m * X) / (X - 1)) * X + p * (m * X) / (X - 1) = 0 := by
      intro m X hX
      field_simp
      ring
    rw [mul_comm 12 t,
      key (r / 100 / 12) ((1 + r / 100 / 12) ^ (t * 12)) hdne] at hiter
    rcases mul_eq_zero.mp hiter with h | h
    · rw [mul_comm 12 t]
      exact h
    · exact absurd h (ne_of_gt hm)

/-- The last row of the generated schedule, at index `term_years`. -/
lemma generate_getLast (p r : ℚ) (t : ℕ) (e vp : ℚ) (vi : Option VehicleInfo) :
    (generate_amortization_and_depreciation p r t e vp vi).getLast? =
      some { year := t, loan_Balance := max 0 (balance_at_year p r e t),
             car_Value := depreciated_value vp t } := by
  unfold generate_amortization_and_depreciation
  rw [List.range_succ, List.map_append]
  simp [List.getLast?_concat]

/-- Numeric evaluation of the annuity EMI for principal 36000, rate 6%,
term 6 years: it is within a cent of $596.62. -/
lemma emi_36000_close :
    |36000 * ((6 / 100 / 12 : ℚ) * (1 + 6 / 100 / 12) ^ (6 * 12)) /
        ((1 + 6 / 100 / 12) ^ (6 * 12) - 1) - 59662 / 100| < 1 / 100 := by
  rw [abs_lt]
  norm_num

/-- C2 (amended): whenever `calculate_emi` succeeds on `principal ≥ 0`,
`rate ≥ 0`, `term > 0`, the last row of the generated schedule (the row for
`year = term_years`) has remaining balance exactly 0 in exact arithmetic; for
the end-to-end scenario principal $36,000, rate 6%, term 6 years the EMI is
approximately $596.62/month (not $596.45 as the spec claims). -/
theorem schedule_last_balance_zero (p r : ℚ) (t : ℕ) (hp : 0 ≤ p) (hr : 0 ≤ r)
    (ht : 0 < t) (e vp : ℚ) (vi : Option VehicleInfo)
    (he : calculate_emi p r t = Except.ok e) :
    (∃ row, (generate_amortization_and_depreciation p r t e vp vi).getLast? =
        some row ∧ row.year = t ∧ row.loan_Balance = 0) ∧
    ∃ e₀, calculate_emi 36000 6 6 = Except.ok e₀ ∧ |e₀ - 59662 / 100| < 1 / 100 := by
  constructor
  · refine ⟨_, generate_getLast p r t e vp vi, rfl, ?_⟩
    simp [balance_at_term_zero p r t hr ht e he]
  · exact ⟨_, calculate_emi_pos 36000 6 6 (by norm_num) (by norm_num), emi_36000_close⟩

/-- Witness for C2 at principal 100, zero rate, term 1 year, EMI 100/12. -/
theorem schedule_last_balance_zero_witness :
    (∃ row, (generate_amortization_and_depreciation 100 0 1 (25/3) 500 none).getLast? =
        some row ∧ row.year = 1 ∧ row.loan_Balance = 0) ∧
    ∃ e₀, calculate_emi 36000 6 6 = Except.ok e₀ ∧ |e₀ - 59662 / 100| < 1 / 100 :=
  schedule_last_balance_zero 100 0 1 (by norm_num) (by norm_num) (by norm_num)
    (25/3) 500 none
    (by rw [calculate_emi_zero_rate 100 1 (by norm_num)]; norm_num [Except.ok.injEq])

/-- C2 counterexample: at principal 36000, rate 6, term 6, the EMI returned by
`calculate_emi` differs from the spec's claimed $596.45 by more than 16 cents
(it is ≈ $596.62). -/
theorem schedule_last_balance_zero_counterexample :
    calculate_emi 36000 6 6 = Except.ok
      (36000 * ((6 / 100 / 12 : ℚ) * (1 + 6 / 100 / 12) ^ (6 * 12)) /
        ((1 + 6 / 100 / 12) ^ (6 * 12) - 1)) ∧
    16 / 100 < |36000 * ((6 / 100 / 12 : ℚ) * (1 + 6 / 100 / 12) ^ (6 * 12)) /
        ((1 + 6 / 100 / 12) ^ (6 * 12) - 1) - 59645 / 100| := by
  refine ⟨calculate_emi_pos 36000 6 6 (by norm_num) (by norm_num), ?_⟩
  rw [lt_abs]
  left
  norm_num

/-- With a positive annual rate and a zero term, the annuity denominator
`(1 + monthly_rate) ** 0 - 1` is 0 and `calculate_emi` raises
`ZeroDivisionError`. -/
lemma calculate_emi_zero_term_pos_rate (p r : ℚ) (hr : 0 < r) :
    calculate_emi p r 0 = Except.error LoanError.zeroDivisionError := by
  have hm : 0 < r / 100 / 12 := (monthly_rate_pos_iff r).mpr hr
  unfold calculate_emi
  rw [if_pos hm, if_pos (by norm_num : (1 + r / 100 / 12) ^ (0 * 12) - 1 = 0)]

/-- C3 (amended): with a zero term, `calculate_emi` returns 0 when the monthly
rate is 0 (the `term_months > 0` conditional guards that branch), but when the
monthly rate is positive the division is unguarded: the denominator
`(1 + monthly_rate) ** 0 - 1` is 0 and the call raises `ZeroDivisionError` —
it is not rejected before computation and no `InvalidTermError` is signalled. -/
theorem zero_term_behavior (p r : ℚ) (hr : 0 ≤ r) :
    (r = 0 → calculate_emi p r 0 = Except.ok 0) ∧
    (0 < r → calculate_emi p r 0 = Except.error LoanError.zeroDivisionError) := by
  constructor
  · rintro rfl
    unfold calculate_emi
    norm_num
  · exact calculate_emi_zero_term_pos_rate p r

/-- Witness for C3 at principal 100, rate 12%. -/
theorem zero_term_behavior_witness :
    calculate_emi 100 12 0 = Except.error LoanError.zeroDivisionError :=
  (zero_term_behavior 100 12 (by norm_num)).2 (by norm_num)

/-- C3 counterexample: at principal 100, rate 12, term 0, the code raises
`ZeroDivisionError`; it neither returns 0 nor signals `InvalidTermError`. -/
theorem zero_term_counterexample :
    calculate_emi 100 12 0 = Except.error LoanError.zeroDivisionError ∧
    calculate_emi 100 12 0 ≠ Except.ok 0 ∧
    calculate_emi 100 12 0 ≠ Except.error LoanError.invalidTermError := by
  have h := calculate_emi_zero_term_pos_rate 100 12 (by norm_num)
  refine ⟨h, ?_, ?_⟩ <;> rw [h] <;> simp

end AutoLoan
